import Mathlib

/-!
Shallow embedding of the GitHub repository data sync script (the alert
fetching/summarizing functions, the ownership-preserving merge, and the
dashboard's risk scorer), together with theorems settling the frozen claims.

Timestamps are embedded as integer milliseconds since the epoch (the numeric
value of the JavaScript `Date`); optional JSON fields are `Option`; JavaScript
`||` fallback chains on strings are embedded with explicit helpers in which the
empty string is falsy, matching JS truthiness.  Numeric JS arithmetic that can
leave the integers (averages, the risk multiplier) is embedded over `ℚ`, with
`Math.round x` embedded as `⌊x + 1/2⌋` (which agrees with JS's half-up
rounding).
-/

namespace SyncSpec

/-- JS `a || b` for strings: the empty string is falsy. -/
def jsOrS (a b : String) : String := if a = "" then b else a

/-- JS `a || b` where `a` is an optional string (absent field = `undefined`). -/
def jsOrOS : Option String → Option String → Option String
  | some s, b => if s = "" then b else some s
  | none, b => b

/-- JS `a || d` collapsing an optional string to a string default. -/
def jsOrD (a : Option String) (d : String) : String :=
  match a with
  | some s => if s = "" then d else s
  | none => d

/-- JS truthiness of an optional string value. -/
def jsTruthyO (a : Option String) : Bool :=
  match a with
  | some s => s ≠ ""
  | none => false

/-- JS `a || b` on optional timestamps (absent = `undefined`, falsy). -/
def jsOrOT : Option Int → Option Int → Option Int
  | some t, _ => some t
  | none, b => b

/-- JS `Math.round`, embedded over `ℚ`: round half up. -/
def jsRound (q : ℚ) : Int := ⌊q + 1/2⌋

/-- `Math.round(a / b)` for an integer numerator and positive integer
denominator: `⌊a/b + 1/2⌋ = ⌊(2a + b) / (2b)⌋` with floor division. -/
def jsRoundDiv (a b : Int) : Int := Int.fdiv (2 * a + b) (2 * b)

/-- JS `s.toLowerCase()` (character-wise). -/
def strLower (s : String) : String := ⟨s.data.map Char.toLower⟩

def listContainsSub (sub : List Char) : List Char → Bool
  | [] => sub.isEmpty
  | c :: rest => sub.isPrefixOf (c :: rest) || listContainsSub sub rest

/-- JS `s.includes(sub)`. -/
def containsStr (s sub : String) : Bool := listContainsSub sub.data s.data

/-- JS `s.trim()`. -/
def strTrim (s : String) : String :=
  ⟨((s.data.dropWhile Char.isWhitespace).reverse.dropWhile Char.isWhitespace).reverse⟩

/-- The characters after the first occurrence of `ch` (empty if none). -/
def afterFirst (ch : Char) : List Char → List Char
  | [] => []
  | c :: rest => if c = ch then rest else afterFirst ch rest

/-- JS `s.split(ch)[1]`, assuming `s` contains `ch`: the characters between
the first occurrence of `ch` and the next one (or the end). -/
def secondSeg (ch : Char) (s : String) : String :=
  ⟨(afterFirst ch s.data).takeWhile (fun c => c ≠ ch)⟩

/-- JS `s.split(ch)[0]`: the characters before the first occurrence of `ch`. -/
def firstSeg (ch : Char) (s : String) : String :=
  ⟨s.data.takeWhile (fun c => c ≠ ch)⟩

/-- JS `s.split(ch).slice(0, -1).join(ch)`, assuming `s` contains `ch`:
everything before the last occurrence of `ch`. -/
def beforeLast (ch : Char) (s : String) : String :=
  ⟨(afterFirst ch s.data.reverse).reverse⟩

/-- Milliseconds per day, the divisor `1000*60*60*24` used for all age math. -/
def msPerDay : Int := 86400000

/-- Milliseconds in the 30-day window (`thirtyDaysAgo = now - 30 days`). -/
def ms30Days : Int := 30 * msPerDay

/-- `Math.floor((now - created) / (1000*60*60*24))`: floor division on ℤ. -/
def ageDaysOf (now created : Int) : Int := Int.fdiv (now - created) msPerDay

/-- The per-severity count map `{critical, high, medium, low, info}` used for
the `openedLast30DaysBySeverity` / `closedLast30DaysBySeverity` objects. -/
structure SevMap where
  critical : Nat
  high : Nat
  medium : Nat
  low : Nat
  info : Nat
deriving Repr, DecidableEq

def SevMap.zero : SevMap := ⟨0, 0, 0, 0, 0⟩

/-- `map[severityKey]++` — `severityKey` is always one of the five keys. -/
def SevMap.inc (m : SevMap) (k : String) : SevMap :=
  if k = "critical" then { m with critical := m.critical + 1 }
  else if k = "high" then { m with high := m.high + 1 }
  else if k = "medium" then { m with medium := m.medium + 1 }
  else if k = "low" then { m with low := m.low + 1 }
  else if k = "info" then { m with info := m.info + 1 }
  else m

/-- Sum of the five buckets, as in
`openedBySeverity.critical + ... + openedBySeverity.info`. -/
def SevMap.sum (m : SevMap) : Nat :=
  m.critical + m.high + m.medium + m.low + m.info

/-- The age histogram `{'0-7', '8-30', '31-90', '91-180', '180+'}`. -/
structure AgeBuckets where
  b0_7 : Nat
  b8_30 : Nat
  b31_90 : Nat
  b91_180 : Nat
  b180plus : Nat
deriving Repr, DecidableEq

def AgeBuckets.zero : AgeBuckets := ⟨0, 0, 0, 0, 0⟩

/-- The bucket-increment chain
`if (ageDays <= 7) ... else if (ageDays <= 30) ... else ageBuckets['180+']++`. -/
def AgeBuckets.inc (b : AgeBuckets) (ageDays : Int) : AgeBuckets :=
  if ageDays ≤ 7 then { b with b0_7 := b.b0_7 + 1 }
  else if ageDays ≤ 30 then { b with b8_30 := b.b8_30 + 1 }
  else if ageDays ≤ 90 then { b with b31_90 := b.b31_90 + 1 }
  else if ageDays ≤ 180 then { b with b91_180 := b.b91_180 + 1 }
  else { b with b180plus := b.b180plus + 1 }

/-- The `aging` object of a summary. -/
structure Aging where
  oldestAge : Int
  averageAge : Int
  ageBuckets : AgeBuckets
deriving Repr, DecidableEq

def Aging.zero : Aging := ⟨0, 0, AgeBuckets.zero⟩

/-- A code-scanning alert as consumed by `fetchCodeScanningAlerts`:
`state`, `created_at`, `closed_at`/`dismissed_at`, `updated_at`, and the
rule's `security_severity_level` / `severity` labels. -/
structure CSAlert where
  state : String
  created_at : Option Int
  closed_at : Option Int
  dismissed_at : Option Int
  updated_at : Option String
  rule_security_severity_level : Option String
  rule_severity : Option String
deriving Repr, DecidableEq

/-- `(alert.rule?.security_severity_level || alert.rule?.severity || 'medium').toLowerCase()`
then `['critical','high','medium','low','info'].includes(severity) ? severity : 'medium'`:
the severity key used for the 30-day per-severity maps. -/
def CSAlert.sevKey (a : CSAlert) : String :=
  let severity :=
    strLower (jsOrD (jsOrOS a.rule_security_severity_level a.rule_severity) "medium")
  if severity ∈ ["critical", "high", "medium", "low", "info"] then severity
  else "medium"

/-- `a.rule?.security_severity_level || a.rule?.severity || ''` lower-cased:
the severity string tested by the open-alert severity-count filters. -/
def CSAlert.openSev (a : CSAlert) : String :=
  strLower (jsOrD (jsOrOS a.rule_security_severity_level a.rule_severity) "")

/-- `alert.closed_at || alert.dismissed_at`. -/
def CSAlert.closedDate (a : CSAlert) : Option Int :=
  jsOrOT a.closed_at a.dismissed_at

/-- The code-scanning summary object built by `fetchCodeScanningAlerts`.
Its top-level severity counts are exactly `critical`, `high`, `medium`, `low`
(the object literal carries no `info` count). -/
structure CSSummary where
  total : Nat
  critical : Nat
  high : Nat
  medium : Nat
  low : Nat
  openedLast30Days : Nat
  closedLast30Days : Nat
  openedLast30DaysBySeverity : SevMap
  closedLast30DaysBySeverity : SevMap
  aging : Aging
  mttr : Int
  lastUpdated : Option String
  enabled : Bool
deriving Repr, DecidableEq

/-- The keys of the summary object literal returned on the success path of
`fetchCodeScanningAlerts` (in source order). -/
def csSummaryFields : List String :=
  ["total", "critical", "high", "medium", "low",
   "openedLast30Days", "closedLast30Days",
   "openedLast30DaysBySeverity", "closedLast30DaysBySeverity",
   "aging", "mttr", "lastUpdated", "enabled"]

/-- The 30-day opened/closed tally over the whole (unpartitioned) alert list. -/
def csThirtyDayTally (alerts : List CSAlert) (thirtyDaysAgo : Int) :
    SevMap × SevMap :=
  alerts.foldl
    (fun p a =>
      let severityKey := a.sevKey
      let p1 :=
        match a.created_at with
        | some created =>
            if created ≥ thirtyDaysAgo then (p.1.inc severityKey, p.2) else p
        | none => p
      match a.closedDate with
      | some closed =>
          if closed ≥ thirtyDaysAgo then (p1.1, p1.2.inc severityKey) else p1
      | none => p1)
    (SevMap.zero, SevMap.zero)

/-- The aging pass over the open alerts: running `oldestAge`, `totalAge`,
and the age-bucket histogram (alerts without `created_at` are skipped). -/
def agingTally (nowMs : Int) (createdDates : List (Option Int)) :
    Int × Int × AgeBuckets :=
  createdDates.foldl
    (fun acc c =>
      match c with
      | some created =>
          let ageDays := ageDaysOf nowMs created
          (max acc.1 ageDays, acc.2.1 + ageDays, acc.2.2.inc ageDays)
      | none => acc)
    (0, 0, AgeBuckets.zero)

/-- The MTTR pass over the closed alerts: total remediation days and count,
keeping only pairs with both timestamps and a non-negative difference. -/
def mttrTally (pairs : List (Option Int × Option Int)) : Int × Nat :=
  pairs.foldl
    (fun acc p =>
      match p.1, p.2 with
      | some created, some closed =>
          let daysToRemediate := Int.fdiv (closed - created) msPerDay
          if daysToRemediate ≥ 0 then (acc.1 + daysToRemediate, acc.2 + 1)
          else acc
      | _, _ => acc)
    (0, 0)

/-- `averageAge = open.length > 0 ? Math.round(totalAge / open.length) : 0`
(and the analogous `mttr`). -/
def jsAvg (total : Int) (count : Nat) : Int :=
  if count > 0 then jsRoundDiv total (count : Int) else 0

/-- `alerts.length > 0 ? alerts[0].updated_at : null`. -/
def firstUpdatedAt (upds : List (Option String)) : Option String :=
  match upds with
  | [] => none
  | u :: _ => u

/-- The summarizing tail of `fetchCodeScanningAlerts`, applied to the
concatenated alert list of all fetched states (`now` in epoch ms). -/
def summarizeCodeScanning (alerts : List CSAlert) (now : Int) : CSSummary :=
  let thirtyDaysAgo := now - ms30Days
  let tallies := csThirtyDayTally alerts thirtyDaysAgo
  let openedBySeverity := tallies.1
  let closedBySeverity := tallies.2
  let openAlerts := alerts.filter (fun a => a.state = "open")
  let closedAlerts :=
    alerts.filter (fun a => a.state = "closed" ∨ a.state = "dismissed")
  let aging := agingTally now (openAlerts.map (·.created_at))
  let averageAge := jsAvg aging.2.1 openAlerts.length
  let remediation := mttrTally (closedAlerts.map (fun a => (a.created_at, a.closedDate)))
  let mttr := jsAvg remediation.1 remediation.2
  { total := openAlerts.length
    critical := (openAlerts.filter (fun a => a.openSev = "critical")).length
    high := (openAlerts.filter (fun a => a.openSev = "high")).length
    medium := (openAlerts.filter (fun a => a.openSev = "medium")).length
    low := (openAlerts.filter (fun a => a.openSev = "low")).length
    openedLast30Days := openedBySeverity.sum
    closedLast30Days := closedBySeverity.sum
    openedLast30DaysBySeverity := openedBySeverity
    closedLast30DaysBySeverity := closedBySeverity
    aging := ⟨aging.1, averageAge, aging.2.2⟩
    mttr := mttr
    lastUpdated := firstUpdatedAt (alerts.map (·.updated_at))
    enabled := true }

/-- The all-zero code-scanning summary literal returned when a 403/404 escapes
the paging loops (`enabled: false`), and — with `enabled := true` — the value
`summarizeCodeScanning [] now` takes on an empty fetch. -/
def csZeroSummary (enabled : Bool) : CSSummary :=
  { total := 0, critical := 0, high := 0, medium := 0, low := 0
    openedLast30Days := 0, closedLast30Days := 0
    openedLast30DaysBySeverity := SevMap.zero
    closedLast30DaysBySeverity := SevMap.zero
    aging := Aging.zero, mttr := 0, lastUpdated := none, enabled := enabled }

/-- A Dependabot alert as consumed by `fetchDependabotAlerts`. -/
structure DBAlert where
  state : String
  created_at : Option Int
  dismissed_at : Option Int
  fixed_at : Option Int
  updated_at : Option String
  security_advisory_severity : Option String
  dependency_package_ecosystem : Option String
deriving Repr, DecidableEq

/-- `(alert.security_advisory?.severity || 'medium').toLowerCase()` mapped
through the five-key membership guard. -/
def DBAlert.sevKey (a : DBAlert) : String :=
  let severity := strLower (jsOrD a.security_advisory_severity "medium")
  if severity ∈ ["critical", "high", "medium", "low", "info"] then severity
  else "medium"

/-- `a.security_advisory?.severity || ''` lower-cased (open-count filters). -/
def DBAlert.openSev (a : DBAlert) : String :=
  strLower (jsOrD a.security_advisory_severity "")

/-- `alert.dismissed_at || alert.fixed_at`. -/
def DBAlert.closedDate (a : DBAlert) : Option Int :=
  jsOrOT a.dismissed_at a.fixed_at

/-- The Dependabot summary object (`ecosystems` list, no top-level `info`). -/
structure DBSummary where
  total : Nat
  critical : Nat
  high : Nat
  medium : Nat
  low : Nat
  ecosystems : List String
  openedLast30Days : Nat
  closedLast30Days : Nat
  openedLast30DaysBySeverity : SevMap
  closedLast30DaysBySeverity : SevMap
  aging : Aging
  mttr : Int
  lastUpdated : Option String
  enabled : Bool
deriving Repr, DecidableEq

/-- The keys of the Dependabot success-path summary literal (source order). -/
def dbSummaryFields : List String :=
  ["total", "critical", "high", "medium", "low", "ecosystems",
   "openedLast30Days", "closedLast30Days",
   "openedLast30DaysBySeverity", "closedLast30DaysBySeverity",
   "aging", "mttr", "lastUpdated", "enabled"]

/-- The 30-day tally of `fetchDependabotAlerts` over the whole alert list. -/
def dbThirtyDayTally (alerts : List DBAlert) (thirtyDaysAgo : Int) :
    SevMap × SevMap :=
  alerts.foldl
    (fun p a =>
      let severityKey := a.sevKey
      let p1 :=
        match a.created_at with
        | some created =>
            if created ≥ thirtyDaysAgo then (p.1.inc severityKey, p.2) else p
        | none => p
      match a.closedDate with
      | some closed =>
          if closed ≥ thirtyDaysAgo then (p1.1, p1.2.inc severityKey) else p1
      | none => p1)
    (SevMap.zero, SevMap.zero)

/-- The `Set`-then-`Array.from` ecosystem collection over the open alerts
(insertion order, truthiness-guarded). -/
def ecosystemsOf (openAlerts : List DBAlert) : List String :=
  openAlerts.foldl
    (fun acc a =>
      match a.dependency_package_ecosystem with
      | some e => if e ≠ "" ∧ e ∉ acc then acc ++ [e] else acc
      | none => acc)
    []

/-- The summarizing tail of `fetchDependabotAlerts`. -/
def summarizeDependabot (alerts : List DBAlert) (now : Int) : DBSummary :=
  let thirtyDaysAgo := now - ms30Days
  let tallies := dbThirtyDayTally alerts thirtyDaysAgo
  let openedBySeverity := tallies.1
  let closedBySeverity := tallies.2
  let openAlerts := alerts.filter (fun a => a.state = "open")
  let closedAlerts :=
    alerts.filter (fun a => a.state = "dismissed" ∨ a.state = "fixed")
  let aging := agingTally now (openAlerts.map (·.created_at))
  let averageAge := jsAvg aging.2.1 openAlerts.length
  let remediation := mttrTally (closedAlerts.map (fun a => (a.created_at, a.closedDate)))
  let mttr := jsAvg remediation.1 remediation.2
  { total := openAlerts.length
    critical := (openAlerts.filter (fun a => a.openSev = "critical")).length
    high := (openAlerts.filter (fun a => a.openSev = "high")).length
    medium := (openAlerts.filter (fun a => a.openSev = "medium")).length
    low := (openAlerts.filter (fun a => a.openSev = "low")).length
    ecosystems := ecosystemsOf openAlerts
    openedLast30Days := openedBySeverity.sum
    closedLast30Days := closedBySeverity.sum
    openedLast30DaysBySeverity := openedBySeverity
    closedLast30DaysBySeverity := closedBySeverity
    aging := ⟨aging.1, averageAge, aging.2.2⟩
    mttr := mttr
    lastUpdated := firstUpdatedAt (alerts.map (·.updated_at))
    enabled := true }

/-- The all-zero Dependabot summary literal (`enabled := false` for the
403/404 fallbacks; `enabled := true` is the empty-fetch value). -/
def dbZeroSummary (enabled : Bool) : DBSummary :=
  { total := 0, critical := 0, high := 0, medium := 0, low := 0
    ecosystems := []
    openedLast30Days := 0, closedLast30Days := 0
    openedLast30DaysBySeverity := SevMap.zero
    closedLast30DaysBySeverity := SevMap.zero
    aging := Aging.zero, mttr := 0, lastUpdated := none, enabled := enabled }

/-- A secret-scanning alert as consumed by `fetchSecretScanningAlerts`. -/
structure SSAlert where
  state : String
  created_at : Option Int
  resolved_at : Option Int
  updated_at : Option String
  secret_type : Option String
deriving Repr, DecidableEq

/-- The secret-scanning summary: no severity counts of its own, but the
30-day per-severity maps are emitted anyway, always all-zero. -/
structure SSSummary where
  total : Nat
  secretTypes : List (String × Nat)
  openedLast30Days : Nat
  closedLast30Days : Nat
  openedLast30DaysBySeverity : SevMap
  closedLast30DaysBySeverity : SevMap
  aging : Aging
  mttr : Int
  lastUpdated : Option String
  enabled : Bool
deriving Repr, DecidableEq

/-- `secretTypes[type] = (secretTypes[type] || 0) + 1` on an
insertion-ordered association list (JS object key order). -/
def bumpAssoc (l : List (String × Nat)) (k : String) : List (String × Nat) :=
  if l.any (fun p => p.1 = k) then
    l.map (fun p => if p.1 = k then (p.1, p.2 + 1) else p)
  else l ++ [(k, 1)]

/-- The summarizing tail of `fetchSecretScanningAlerts`. -/
def summarizeSecretScanning (alerts : List SSAlert) (now : Int) : SSSummary :=
  let thirtyDaysAgo := now - ms30Days
  let openedLast30Days :=
    (alerts.filter (fun a =>
      match a.created_at with
      | some created => created ≥ thirtyDaysAgo
      | none => false)).length
  let closedLast30Days :=
    (alerts.filter (fun a =>
      match a.resolved_at with
      | some resolved => resolved ≥ thirtyDaysAgo
      | none => false)).length
  let openAlerts := alerts.filter (fun a => a.state = "open")
  let closedAlerts := alerts.filter (fun a => a.state = "resolved")
  let aging := agingTally now (openAlerts.map (·.created_at))
  let averageAge := jsAvg aging.2.1 openAlerts.length
  let remediation := mttrTally (closedAlerts.map (fun a => (a.created_at, a.resolved_at)))
  let mttr := jsAvg remediation.1 remediation.2
  let secretTypes :=
    openAlerts.foldl (fun acc a => bumpAssoc acc (jsOrD a.secret_type "unknown")) []
  { total := openAlerts.length
    secretTypes := secretTypes
    openedLast30Days := openedLast30Days
    closedLast30Days := closedLast30Days
    openedLast30DaysBySeverity := SevMap.zero
    closedLast30DaysBySeverity := SevMap.zero
    aging := ⟨aging.1, averageAge, aging.2.2⟩
    mttr := mttr
    lastUpdated := firstUpdatedAt (alerts.map (·.updated_at))
    enabled := true }

/-- The all-zero secret-scanning summary literal. -/
def ssZeroSummary (enabled : Bool) : SSSummary :=
  { total := 0, secretTypes := []
    openedLast30Days := 0, closedLast30Days := 0
    openedLast30DaysBySeverity := SevMap.zero
    closedLast30DaysBySeverity := SevMap.zero
    aging := Aging.zero, mttr := 0, lastUpdated := none, enabled := enabled }

/-- Outcome of a fetch: a value, a thrown HTTP error (status code), or loop
fuel exhausted (the JS `while` has no bound; theorems always supply enough). -/
inductive FetchOut (σ : Type) where
  | done (s : σ)
  | err (c : Nat)
  | fuelOut
deriving Repr, DecidableEq

/-- One state's paging loop:
`while (hasMore) { try { page := oracle(page) } catch { 404/403 → stop } }`,
appending full pages (`hasMore = response.length === 100`). -/
def pageLoop (oracle : Nat → Except Nat (List α)) :
    Nat → Nat → List α → FetchOut (List α)
  | 0, _, _ => .fuelOut
  | fuel + 1, page, acc =>
    match oracle page with
    | .ok response =>
        if response.length = 100 then pageLoop oracle fuel (page + 1) (acc ++ response)
        else .done (acc ++ response)
    | .error c =>
        if c = 404 ∨ c = 403 then .done acc else .err c

/-- The `for (const state of states)` loop: run each state's paging loop in
order, concatenating into one alert list; non-403/404 errors propagate. -/
def statesLoop (oracle : String → Nat → Except Nat (List α)) (fuel : Nat) :
    List String → List α → FetchOut (List α)
  | [], acc => .done acc
  | state :: rest, acc =>
    match pageLoop (oracle state) fuel 1 acc with
    | .done acc1 => statesLoop oracle fuel rest acc1
    | .err c => .err c
    | .fuelOut => .fuelOut

/-- `fetchCodeScanningAlerts`: page through states `open`, `closed`,
`dismissed`, summarize; the outer catch turns an escaped 403/404 into the
all-zero `enabled:false` summary and rethrows anything else. -/
def fetchCodeScanningAlerts (oracle : String → Nat → Except Nat (List CSAlert))
    (fuel : Nat) (now : Int) : FetchOut CSSummary :=
  match statesLoop oracle fuel ["open", "closed", "dismissed"] [] with
  | .done alerts => .done (summarizeCodeScanning alerts now)
  | .err c =>
      if c = 403 ∨ c = 404 then .done (csZeroSummary false) else .err c
  | .fuelOut => .fuelOut

/-- `fetchDependabotAlerts`: states `open`, `dismissed`, `fixed`,
`auto_dismissed`; same error structure. -/
def fetchDependabotAlerts (oracle : String → Nat → Except Nat (List DBAlert))
    (fuel : Nat) (now : Int) : FetchOut DBSummary :=
  match statesLoop oracle fuel ["open", "dismissed", "fixed", "auto_dismissed"] [] with
  | .done alerts => .done (summarizeDependabot alerts now)
  | .err c =>
      if c = 403 ∨ c = 404 then .done (dbZeroSummary false) else .err c
  | .fuelOut => .fuelOut

/-- `fetchSecretScanningAlerts`: states `open`, `resolved`. -/
def fetchSecretScanningAlerts (oracle : String → Nat → Except Nat (List SSAlert))
    (fuel : Nat) (now : Int) : FetchOut SSSummary :=
  match statesLoop oracle fuel ["open", "resolved"] [] with
  | .done alerts => .done (summarizeSecretScanning alerts now)
  | .err c =>
      if c = 403 ∨ c = 404 then .done (ssZeroSummary false) else .err c
  | .fuelOut => .fuelOut

/-- The `vulnerabilities` bundle of a repository record. -/
structure Vulnerabilities where
  codeScanning : CSSummary
  dependabot : DBSummary
  secretScanning : SSSummary
deriving Repr, DecidableEq

/-- `(owner.login, name)` of a repository being enriched. -/
structure RepoRef where
  owner : String
  name : String
deriving Repr, DecidableEq

/-- The fields of the detailed-repository response that `enrichRepository`
reads. -/
structure DetailedRepo where
  archived : Bool
  disabled : Bool
  description : Option String
  language : Option String
  updated_at : Option String
  html_url : String
  topics : List String
  custom_properties : Option (List (String × String))
  stargazers_count : Nat
  forks_count : Nat
  open_issues_count : Nat
  created_at : Option String
  pushed_at : Option String
  default_branch : String
deriving Repr, DecidableEq

/-- One entry of the `/properties/values` response:
`{ property_name, value }`, either field possibly missing. -/
structure CustomProp where
  property_name : Option String
  value : Option String
deriving Repr, DecidableEq

/-- The `_metadata` block of a freshly enriched record. -/
structure Meta where
  stars : Nat
  forks : Nat
  openIssues : Nat
  createdAt : Option String
  pushedAt : Option String
  defaultBranch : String
  topics : List String
deriving Repr, DecidableEq

/-- The record shape returned by `enrichRepository` (no `engineeringManager`
field: the fetch stage has no such concept, and the source never sets one). -/
structure FreshRecord where
  organization : String
  repository : String
  pod : String
  environmentType : String
  vertical : String
  description : String
  language : String
  status : String
  lastActivity : Option String
  githubUrl : String
  meta : Meta
  codeowners : Bool
  vulnerabilities : Vulnerabilities
deriving Repr, DecidableEq

/-- A persisted repository record (the shape read from and written to
`repositories.json`; `vulnerabilities`/`_metadata` may be absent in
hand-maintained prior data, hence `Option`). -/
structure RepoRecord where
  organization : String
  repository : String
  pod : String
  environmentType : String
  vertical : String
  description : String
  language : String
  status : String
  lastActivity : Option String
  githubUrl : String
  engineeringManager : String
  codeowners : Bool
  vulnerabilities : Option Vulnerabilities
  meta : Option Meta
deriving Repr, DecidableEq

/-- `x || null`: collapse an empty-string value to `null`. -/
def jsNorm (a : Option String) : Option String := jsOrOS a none

/-- Property access `obj[k]` on an embedded JS object. -/
def lookupProp (l : List (String × String)) (k : String) : Option String :=
  (l.find? (fun p => p.1 = k)).map (fun p => p.2)

/-- `obj[k1] || obj[k2] || obj[k3]` — the three-cased property fallback used
for `Pod`/`pod`/`POD` and `EnvironmentType`/... lookups. -/
def lookup3 (l : List (String × String)) (k1 k2 k3 : String) : Option String :=
  jsOrOS (lookupProp l k1) (jsOrOS (lookupProp l k2) (lookupProp l k3))

/-- `customProperties[prop.property_name] = prop.value` (object assignment:
an existing key is overwritten in place). -/
def upsertAssocS (l : List (String × String)) (k v : String) :
    List (String × String) :=
  if l.any (fun p => p.1 = k) then
    l.map (fun p => if p.1 = k then (p.1, v) else p)
  else l ++ [(k, v)]

/-- Convert the `/properties/values` array to the `customProperties` object,
keeping only entries whose `property_name` and `value` are both truthy. -/
def buildCustomProps (props : List CustomProp) : List (String × String) :=
  props.foldl
    (fun m p =>
      match p.property_name, p.value with
      | some n, some v => if n ≠ "" ∧ v ≠ "" then upsertAssocS m n v else m
      | _, _ => m)
    []

/-- Method 2 of the pod extraction: find a topic containing `pod:`
(lower-cased) or containing `-` with length > 5, then strip an optional
`prefix:`-style head and trim. -/
def podFromTopics (topics : List String) : Option String :=
  match topics.find? (fun t =>
      containsStr (strLower t) "pod:" ∨ (containsStr t "-" ∧ t.length > 5)) with
  | some podTopic =>
      some (if containsStr podTopic ":" then strTrim (secondSeg ':' podTopic)
            else podTopic)
  | none => none

/-- `vertical = parts.slice(0, -1).join('-')` when the pod is truthy and
contains a dash. -/
def verticalOfPod (pod : Option String) : Option String :=
  match pod with
  | some p =>
      if p ≠ "" ∧ containsStr p "-" then some (beforeLast '-' p)
      else none
  | none => none

/-- The three CODEOWNERS probe locations. -/
def codeownersPaths : List String :=
  [".github/CODEOWNERS", "CODEOWNERS", "docs/CODEOWNERS"]

/-- `enrichRepository`, parameterized over the outcomes of its network calls:
the detailed-repo fetch (whose failure is caught at the bottom and yields
`null`), the custom-properties fetch (failures ignored), the per-path
CODEOWNERS probes, and the three alert-kind fetches (each individually
caught; a failure is replaced by the all-zero `enabled:false` summary).
Archived repositories yield `null`. -/
def enrichRepository (ref : RepoRef) (detailed : Except Nat DetailedRepo)
    (customProps : Except Nat (Option (List CustomProp)))
    (contentsOk : String → Bool)
    (cs : Except Nat CSSummary) (db : Except Nat DBSummary)
    (ss : Except Nat SSSummary) : Option FreshRecord :=
  match detailed with
  | .error _ => none
  | .ok d =>
    let topics := d.topics
    let customProperties : Option (List (String × String)) :=
      match customProps with
      | .ok (some props) => some (buildCustomProps props)
      | _ => none
    let pod0 : Option String :=
      match customProperties with
      | some cp => jsNorm (lookup3 cp "Pod" "pod" "POD")
      | none => none
    let et0 : Option String :=
      match customProperties with
      | some cp =>
          jsNorm (lookup3 cp "EnvironmentType" "environmentType" "ENVIRONMENTTYPE")
      | none => none
    let pe1 : Option String × Option String :=
      if ¬ jsTruthyO pod0 then
        match d.custom_properties with
        | some dcp =>
            (jsOrOS (lookup3 dcp "Pod" "pod" "POD") pod0,
             jsOrOS (lookup3 dcp "EnvironmentType" "environmentType" "ENVIRONMENTTYPE") et0)
        | none => (pod0, et0)
      else (pod0, et0)
    let pod2 : Option String :=
      if ¬ jsTruthyO pe1.1 then
        match podFromTopics topics with
        | some p => some p
        | none => pe1.1
      else pe1.1
    let vertical := verticalOfPod pod2
    let codeowners := codeownersPaths.any contentsOk
    if d.archived then none
    else
      let codeScanning := match cs with | .ok s => s | .error _ => csZeroSummary false
      let dependabot := match db with | .ok s => s | .error _ => dbZeroSummary false
      let secretScanning := match ss with | .ok s => s | .error _ => ssZeroSummary false
      some
        { organization := ref.owner
          repository := ref.name
          pod := jsOrD pod2 "No Pod Selected"
          environmentType := jsOrD pe1.2 ""
          vertical := jsOrD vertical ""
          description := jsOrD d.description ""
          language := jsOrD d.language ""
          status := if d.disabled then "deprecated" else "active"
          lastActivity :=
            if jsTruthyO d.updated_at then some (firstSeg 'T' (d.updated_at.getD ""))
            else none
          githubUrl := d.html_url
          meta :=
            { stars := d.stargazers_count, forks := d.forks_count
              openIssues := d.open_issues_count, createdAt := d.created_at
              pushedAt := d.pushed_at, defaultBranch := d.default_branch
              topics := topics }
          codeowners := codeowners
          vulnerabilities := ⟨codeScanning, dependabot, secretScanning⟩ }

/-- The `(organization, repository)` identity key. -/
def RepoRecord.key (r : RepoRecord) : String :=
  r.organization ++ "/" ++ r.repository

/-- The identity key of a fresh record. -/
def FreshRecord.key (r : FreshRecord) : String :=
  r.organization ++ "/" ++ r.repository

/-- `existingMap.get(key)` where the map was filled by a `forEach`/`set` pass:
the last record with the key wins. -/
def lookupLast (l : List RepoRecord) (k : String) : Option RepoRecord :=
  l.foldl (fun acc r => if r.key = k then some r else acc) none

/-- The per-record body of `mergeWithOwnership`.  The JS `vulnerabilities:
repo.vulnerabilities || existing.vulnerabilities || {…zero…}` and
`typeof repo.codeowners === 'boolean'` guards are resolved by the fresh
record's shape: every enriched record carries a bundle and a boolean, so the
fresh value always wins for those two fields. -/
def mergeRecord (repo : FreshRecord) (existing : Option RepoRecord) : RepoRecord :=
  match existing with
  | some e =>
      { organization := e.organization
        repository := e.repository
        pod :=
          if repo.pod ≠ "" ∧ repo.pod ≠ "No Pod Selected" then repo.pod
          else jsOrS e.pod "No Pod Selected"
        environmentType := jsOrS repo.environmentType (jsOrS e.environmentType "")
        vertical := jsOrS repo.vertical (jsOrS e.vertical "")
        description := jsOrS repo.description e.description
        language := jsOrS repo.language e.language
        status := jsOrS repo.status e.status
        lastActivity := jsOrOS repo.lastActivity e.lastActivity
        githubUrl := jsOrS repo.githubUrl e.githubUrl
        engineeringManager := jsOrS e.engineeringManager ""
        codeowners := repo.codeowners
        vulnerabilities := some repo.vulnerabilities
        meta := e.meta }
  | none =>
      { organization := repo.organization
        repository := repo.repository
        pod := jsOrS repo.pod "No Pod Selected"
        environmentType := repo.environmentType
        vertical := repo.vertical
        description := repo.description
        language := repo.language
        status := repo.status
        lastActivity := repo.lastActivity
        githubUrl := repo.githubUrl
        engineeringManager := ""
        codeowners := repo.codeowners
        vulnerabilities := some repo.vulnerabilities
        meta := some repo.meta }

/-- `mergeWithOwnership(githubData, existingRepos)`: build the last-wins
existing map, then map every freshly fetched record through the merge.
Prior records with no fresh counterpart produce no output element. -/
def mergeWithOwnership (githubData : List FreshRecord)
    (existingRepos : List RepoRecord) : List RepoRecord :=
  githubData.map (fun r => mergeRecord r (lookupLast existingRepos r.key))

/-- `new Map(list.map(r => [key, r])).values()`: key position fixed by first
occurrence, value overwritten by later occurrences. -/
def dedupStep (acc : List RepoRecord) (r : RepoRecord) : List RepoRecord :=
  if acc.any (fun x => x.key = r.key) then
    acc.map (fun x => if x.key = r.key then r else x)
  else acc ++ [r]

/-- De-duplication of the merged collection by identity key. -/
def dedupByKey (l : List RepoRecord) : List RepoRecord :=
  l.foldl dedupStep []

/-- Everything `enrichRepository` consumes for one repository. -/
structure EnrichInput where
  ref : RepoRef
  detailed : Except Nat DetailedRepo
  customProps : Except Nat (Option (List CustomProp))
  contentsOk : String → Bool
  cs : Except Nat CSSummary
  db : Except Nat DBSummary
  ss : Except Nat SSSummary

def runEnrich (i : EnrichInput) : Option FreshRecord :=
  enrichRepository i.ref i.detailed i.customProps i.contentsOk i.cs i.db i.ss

/-- The run report and persisted dataset of a sync pass. -/
structure SyncResult where
  updated : Nat
  skipped : Nat
  errors : Nat
  repositories : List RepoRecord
deriving Repr, DecidableEq

/-- The data path of `syncRepositories`: enrich each listed repository
(`null` → skipped, a record → updated; `enrichRepository` catches every
per-repository error, so the `errors` counter never fires), merge the
enriched records with the prior collection, and de-duplicate by key. -/
def syncOutput (inputs : List EnrichInput) (existingRepos : List RepoRecord) :
    SyncResult :=
  let enrichedRepos := inputs.filterMap runEnrich
  { updated := enrichedRepos.length
    skipped := inputs.length - enrichedRepos.length
    errors := 0
    repositories := dedupByKey (mergeWithOwnership enrichedRepos existingRepos) }

/-- `Math.max(sastAge, scaAge, secretsAge)` over the three summaries'
`aging.averageAge` (each read through `|| 0`, which only re-maps `0` to `0`). -/
def maxAvgAge (v : Vulnerabilities) : Int :=
  max (max v.codeScanning.aging.averageAge v.dependabot.aging.averageAge)
    v.secretScanning.aging.averageAge

/-- `calculateRiskScore` from the dashboard: severity-weighted base score and
a linear age multiplier capped at 3, applied only when the maximal average age
is positive.  The summaries carry no `info` count, so the source's
`(codeScanning?.info || 0) + (dependabot?.info || 0)` term is `0`. -/
def calculateRiskScore (vulns : Option Vulnerabilities) : Int :=
  match vulns with
  | none => 0
  | some v =>
    let critical := v.codeScanning.critical + v.dependabot.critical
    let high := v.codeScanning.high + v.dependabot.high
    let medium := v.codeScanning.medium + v.dependabot.medium
    let low := v.codeScanning.low + v.dependabot.low
    let info : Nat := 0
    let secrets := v.secretScanning.total
    let baseScore : Nat :=
      critical * 10 + high * 7 + medium * 4 + low * 2 + info * 1 + secrets * 5
    let maxAge := maxAvgAge v
    let ageMultiplier : ℚ :=
      if maxAge > 0 then min (1 + (maxAge : ℚ) / 60) 3 else 1
    jsRound ((baseScore : ℚ) * ageMultiplier)

/-- Modelled from the claim's words (C8): base score Σ over the two
severity-bearing summaries of `critical×10 + high×7 + medium×4 + low×2 +
info×1` (the summaries carry no `info` count, so that term contributes `0`)
plus `secretScanning.total × 5`, times `min(1 + max(averageAge)/60, 3)`,
rounded — with no positivity guard on the age. -/
def claimRiskScore (v : Vulnerabilities) : Int :=
  let baseScore : Nat :=
    (v.codeScanning.critical * 10 + v.codeScanning.high * 7 +
      v.codeScanning.medium * 4 + v.codeScanning.low * 2 + 0 * 1) +
    (v.dependabot.critical * 10 + v.dependabot.high * 7 +
      v.dependabot.medium * 4 + v.dependabot.low * 2 + 0 * 1) +
    v.secretScanning.total * 5
  jsRound ((baseScore : ℚ) * min (1 + (maxAvgAge v : ℚ) / 60) 3)

/-! ## Concrete scenario data and proof-side helper definitions -/

/-- An open code-scanning alert with no severity labels, created at the given
instant. -/
def mkOpenCS (created : Int) : CSAlert :=
  { state := "open", created_at := some created, closed_at := none
    dismissed_at := none, updated_at := none
    rule_security_severity_level := none, rule_severity := none }

/-- An all-`enabled:true` zero bundle. -/
def zeroBundle : Vulnerabilities :=
  ⟨csZeroSummary true, dbZeroSummary true, ssZeroSummary true⟩

/-- The bundle every summary of which reports failure (`enabled:false`):
what `enrichRepository` assembles when all three alert fetches throw. -/
def allFailedBundle : Vulnerabilities :=
  ⟨csZeroSummary false, dbZeroSummary false, ssZeroSummary false⟩

/-- A prior persisted record with curated fields filled in and five critical
open dependency alerts. -/
def examplePrior : RepoRecord :=
  { organization := "acme", repository := "svc", pod := "Vertical1-Pod1"
    environmentType := "", vertical := "Vertical1", description := "svc repo"
    language := "js", status := "active", lastActivity := none
    githubUrl := "https://example.invalid/acme/svc"
    engineeringManager := "Alice", codeowners := true
    vulnerabilities := some
      ⟨csZeroSummary true
       , { dbZeroSummary true with total := 5, critical := 5 }
       , ssZeroSummary true⟩
    meta := none }

/-- A detailed-repository response for an active, non-archived repository. -/
def exampleDetailed : DetailedRepo :=
  { archived := false, disabled := false, description := some "svc repo"
    language := some "js", updated_at := some "2024-01-02T00:00:00Z"
    html_url := "https://example.invalid/acme/svc", topics := []
    custom_properties := none, stargazers_count := 0, forks_count := 0
    open_issues_count := 0, created_at := none, pushed_at := none
    default_branch := "main" }

/-- An enrichment input whose detailed-repository fetch throws HTTP 500. -/
def exampleFailingInput : EnrichInput :=
  { ref := ⟨"acme", "svc"⟩, detailed := .error 500, customProps := .error 500
    contentsOk := fun _ => false, cs := .error 500, db := .error 500
    ss := .error 500 }

/-- An enrichment input whose metadata fetch succeeds but whose three alert
fetches all throw HTTP 500. -/
def exampleAllVulnFailInput : EnrichInput :=
  { exampleFailingInput with detailed := .ok exampleDetailed }

/-- A freshly enriched record carrying only default/empty curated values. -/
def exampleFresh : FreshRecord :=
  { organization := "acme", repository := "svc", pod := "No Pod Selected"
    environmentType := "", vertical := "", description := "", language := ""
    status := "active", lastActivity := none
    githubUrl := "https://example.invalid/acme/svc"
    meta := ⟨0, 0, 0, none, none, "main", []⟩
    codeowners := false, vulnerabilities := zeroBundle }

/-- The record `enrichRepository` produces for `exampleAllVulnFailInput`. -/
def exampleEnriched : FreshRecord :=
  { organization := "acme", repository := "svc", pod := "No Pod Selected"
    environmentType := "", vertical := "", description := "svc repo"
    language := "js", status := "active", lastActivity := some "2024-01-02"
    githubUrl := "https://example.invalid/acme/svc"
    meta := ⟨0, 0, 0, none, none, "main", []⟩
    codeowners := false, vulnerabilities := allFailedBundle }

/-- An `aging` block with a negative average age (reachable when alerts carry
future-dated `created_at` values: the summarizer floors negative age
differences into the running total without clamping). -/
def negAging : Aging := ⟨0, -120, AgeBuckets.zero⟩

/-- A bundle with one critical code-scanning alert and average age `-120`
days in every summary. -/
def negAgeBundle : Vulnerabilities :=
  ⟨{ csZeroSummary true with critical := 1, aging := negAging },
   { dbZeroSummary true with aging := negAging },
   { ssZeroSummary true with aging := negAging }⟩

/-- One run's persisted collection: merge then de-duplicate. -/
def persistRun (fresh : List FreshRecord) (prior : List RepoRecord) :
    List RepoRecord :=
  dedupByKey (mergeWithOwnership fresh prior)

def lookupLastF (l : List FreshRecord) (k : String) : Option FreshRecord :=
  l.foldl (fun acc r => if r.key = k then some r else acc) none

/-- First-occurrence key collection (proof-side helper). -/
def keyStep (acc : List String) (s : String) : List String :=
  if s ∈ acc then acc else acc ++ [s]


/-- An open code-scanning alert created at 999 whose rule carries the
unrecognized severity label `"Warning"`. -/
def exampleWarningCS : CSAlert :=
  { state := "open", created_at := some 999, closed_at := none
    dismissed_at := none, updated_at := none
    rule_security_severity_level := none, rule_severity := some "Warning" }

/-- An open Dependabot alert created at 999 whose advisory carries the
label `"moderate"` (Dependabot's actual mid-tier label, which is not one of
the five bucket names). -/
def exampleModerateDB : DBAlert :=
  { state := "open", created_at := some 999, dismissed_at := none
    fixed_at := none, updated_at := none
    security_advisory_severity := some "moderate"
    dependency_package_ecosystem := none }

/-! ## Shared lemmas -/

/-- Summarizing an empty code-scanning alert list gives the all-zero summary
with `enabled := true`. -/
theorem summarizeCodeScanning_nil (now : Int) :
    summarizeCodeScanning [] now = csZeroSummary true := rfl

/-- Summarizing an empty Dependabot alert list gives the all-zero summary
with `enabled := true`. -/
theorem summarizeDependabot_nil (now : Int) :
    summarizeDependabot [] now = dbZeroSummary true := rfl

/-! ## C6 — zero-fill completeness of severity-bearing summaries -/

/-- C6 counterexample: the claim requires the summary of a severity-bearing
kind to contain all five severity-count buckets including `info`; the
summary object literals of `fetchCodeScanningAlerts` and
`fetchDependabotAlerts` carry no `info` key at all. -/
theorem c6_counterexample :
    "info" ∉ csSummaryFields ∧ "info" ∉ dbSummaryFields := by decide

/-- C6 (amended): summarizing the empty list yields every numeric field `0`,
every emitted map fully zero-populated, and `enabled = true`; the top-level
severity-count buckets are exactly `{critical, high, medium, low}` — the
`info` bucket exists only inside the 30-day per-severity maps. -/
theorem c6_empty_summary_zero_filled :
    (∀ now : Int, summarizeCodeScanning [] now = csZeroSummary true)
    ∧ (∀ now : Int, summarizeDependabot [] now = dbZeroSummary true)
    ∧ "critical" ∈ csSummaryFields ∧ "high" ∈ csSummaryFields
    ∧ "medium" ∈ csSummaryFields ∧ "low" ∈ csSummaryFields
    ∧ "critical" ∈ dbSummaryFields ∧ "high" ∈ dbSummaryFields
    ∧ "medium" ∈ dbSummaryFields ∧ "low" ∈ dbSummaryFields
    ∧ "info" ∉ csSummaryFields ∧ "info" ∉ dbSummaryFields :=
  ⟨summarizeCodeScanning_nil, summarizeDependabot_nil,
   by decide, by decide, by decide, by decide, by decide, by decide,
   by decide, by decide, by decide, by decide⟩

/-! ## C7 — treatment of missing/unknown severity labels -/

/-- C7 counterexample: open alerts whose severity label is missing
(`mkOpenCS`), unrecognized (`"Warning"`), or Dependabot's `"moderate"` are
not counted in the `medium` bucket of the open-alert severity counts,
contrary to the claim; they still count toward `total`. -/
theorem c7_counterexample :
    (summarizeCodeScanning [mkOpenCS 999] 1000).medium = 0
    ∧ (summarizeCodeScanning [mkOpenCS 999] 1000).total = 1
    ∧ (summarizeCodeScanning [exampleWarningCS] 1000).medium = 0
    ∧ (summarizeCodeScanning [exampleWarningCS] 1000).total = 1
    ∧ (summarizeDependabot [exampleModerateDB] 1000).medium = 0
    ∧ (summarizeDependabot [exampleModerateDB] 1000).total = 1 := by decide

/-- A code-scanning severity that resolves (with the `''` default) to none of
the five bucket names resolves to `"medium"` under the `'medium'` default and
the five-name membership guard. -/
theorem csSevKey_medium_of_unmatched (a : CSAlert)
    (h : a.openSev ∉ ["critical", "high", "medium", "low", "info"]) :
    a.sevKey = "medium" := by
  unfold CSAlert.sevKey
  unfold CSAlert.openSev at h
  cases hj : jsOrOS a.rule_security_severity_level a.rule_severity with
  | none => simp only [hj, jsOrD]; decide
  | some s =>
      rw [hj] at h
      by_cases hs : s = ""
      · subst hs; simp only [jsOrD]; decide
      · simp only [jsOrD, if_neg hs] at h ⊢
        rw [if_neg h]

/-- The Dependabot analogue of `csSevKey_medium_of_unmatched`. -/
theorem dbSevKey_medium_of_unmatched (a : DBAlert)
    (h : a.openSev ∉ ["critical", "high", "medium", "low", "info"]) :
    a.sevKey = "medium" := by
  unfold DBAlert.sevKey
  unfold DBAlert.openSev at h
  cases hj : a.security_advisory_severity with
  | none => simp only [hj, jsOrD]; decide
  | some s =>
      rw [hj] at h
      by_cases hs : s = ""
      · subst hs; simp only [jsOrD]; decide
      · simp only [jsOrD, if_neg hs] at h ⊢
        rw [if_neg h]

/-- C7 (amended): for both severity-bearing kinds, an open alert whose
severity label is missing or not one of {critical, high, medium, low, info}
(equivalently: whose `''`-defaulted open-count severity is not one of the
five names) contributes to `total` but to none of the open-alert severity
buckets — in particular not to `medium`; the `medium` default applies only
to the 30-day per-severity maps, where such an alert, created inside the
window, is tallied under `medium`. -/
theorem c7_unmatched_severity_not_in_medium :
    (∀ (a : CSAlert) (now : Int), a.state = "open" →
        a.openSev ∉ ["critical", "high", "medium", "low", "info"] →
        (summarizeCodeScanning [a] now).total = 1
        ∧ (summarizeCodeScanning [a] now).critical = 0
        ∧ (summarizeCodeScanning [a] now).high = 0
        ∧ (summarizeCodeScanning [a] now).medium = 0
        ∧ (summarizeCodeScanning [a] now).low = 0)
    ∧ (∀ (a : CSAlert) (now c : Int),
        a.openSev ∉ ["critical", "high", "medium", "low", "info"] →
        a.created_at = some c → now - ms30Days ≤ c →
        (summarizeCodeScanning [a] now).openedLast30DaysBySeverity.medium = 1)
    ∧ (∀ (a : DBAlert) (now : Int), a.state = "open" →
        a.openSev ∉ ["critical", "high", "medium", "low", "info"] →
        (summarizeDependabot [a] now).total = 1
        ∧ (summarizeDependabot [a] now).critical = 0
        ∧ (summarizeDependabot [a] now).high = 0
        ∧ (summarizeDependabot [a] now).medium = 0
        ∧ (summarizeDependabot [a] now).low = 0)
    ∧ (∀ (a : DBAlert) (now c : Int),
        a.openSev ∉ ["critical", "high", "medium", "low", "info"] →
        a.created_at = some c → now - ms30Days ≤ c →
        (summarizeDependabot [a] now).openedLast30DaysBySeverity.medium = 1) := by
  refine ⟨?_, ?_, ?_, ?_⟩
  · intro a now hst hn
    have h1 : ¬ (a.openSev = "critical") := fun h => hn (by rw [h]; decide)
    have h2 : ¬ (a.openSev = "high") := fun h => hn (by rw [h]; decide)
    have h3 : ¬ (a.openSev = "medium") := fun h => hn (by rw [h]; decide)
    have h4 : ¬ (a.openSev = "low") := fun h => hn (by rw [h]; decide)
    refine ⟨?_, ?_, ?_, ?_, ?_⟩ <;>
      simp [summarizeCodeScanning, hst, h1, h2, h3, h4]
  · intro a now c hn hc hwin
    have hkey := csSevKey_medium_of_unmatched a hn
    have h0 : (summarizeCodeScanning [a] now).openedLast30DaysBySeverity
        = (csThirtyDayTally [a] (now - ms30Days)).1 := rfl
    rw [h0]
    cases hcd : a.closedDate <;>
      simp only [csThirtyDayTally, List.foldl_cons, List.foldl_nil, hc, hcd,
        hkey, if_pos hwin] <;>
      first
      | (split <;> decide)
      | decide
  · intro a now hst hn
    have h1 : ¬ (a.openSev = "critical") := fun h => hn (by rw [h]; decide)
    have h2 : ¬ (a.openSev = "high") := fun h => hn (by rw [h]; decide)
    have h3 : ¬ (a.openSev = "medium") := fun h => hn (by rw [h]; decide)
    have h4 : ¬ (a.openSev = "low") := fun h => hn (by rw [h]; decide)
    refine ⟨?_, ?_, ?_, ?_, ?_⟩ <;>
      simp [summarizeDependabot, hst, h1, h2, h3, h4]
  · intro a now c hn hc hwin
    have hkey := dbSevKey_medium_of_unmatched a hn
    have h0 : (summarizeDependabot [a] now).openedLast30DaysBySeverity
        = (dbThirtyDayTally [a] (now - ms30Days)).1 := rfl
    rw [h0]
    cases hcd : a.closedDate <;>
      simp only [dbThirtyDayTally, List.foldl_cons, List.foldl_nil, hc, hcd,
        hkey, if_pos hwin] <;>
      first
      | (split <;> decide)
      | decide

/-- C7 witness: the amended theorem applied to a concrete severity-free open
code-scanning alert, a concrete `"Warning"`-labelled one, and a concrete
`"moderate"`-labelled Dependabot alert, all created inside the 30-day
window. -/
theorem c7_witness :
    (summarizeCodeScanning [exampleWarningCS] 1000).medium = 0
    ∧ (summarizeCodeScanning [exampleWarningCS] 1000).openedLast30DaysBySeverity.medium = 1
    ∧ (summarizeCodeScanning [mkOpenCS 999] 1000).medium = 0
    ∧ (summarizeCodeScanning [mkOpenCS 999] 1000).openedLast30DaysBySeverity.medium = 1
    ∧ (summarizeDependabot [exampleModerateDB] 1000).medium = 0
    ∧ (summarizeDependabot [exampleModerateDB] 1000).openedLast30DaysBySeverity.medium = 1 :=
  ⟨(c7_unmatched_severity_not_in_medium.1 exampleWarningCS 1000 rfl
      (by decide)).2.2.2.1,
   c7_unmatched_severity_not_in_medium.2.1 exampleWarningCS 1000 999
      (by decide) rfl (by decide),
   (c7_unmatched_severity_not_in_medium.1 (mkOpenCS 999) 1000 rfl
      (by decide)).2.2.2.1,
   c7_unmatched_severity_not_in_medium.2.1 (mkOpenCS 999) 1000 999
      (by decide) rfl (by decide),
   (c7_unmatched_severity_not_in_medium.2.2.1 exampleModerateDB 1000 rfl
      (by decide)).2.2.2.1,
   c7_unmatched_severity_not_in_medium.2.2.2 exampleModerateDB 1000 999
      (by decide) rfl (by decide)⟩

/-! ## C9 — aging bucket boundaries -/

/-- C9: an open alert aged exactly 7, 30, 90, 180 days lands in the
`0-7`, `8-30`, `31-90`, `91-180` bucket respectively (upper bounds are
inclusive), and any alert aged 181 days or more lands in `180+`. -/
theorem c9_age_bucket_boundaries (now : Int) :
    (summarizeCodeScanning [mkOpenCS (now - 7 * msPerDay)] now).aging.ageBuckets
      = ⟨1, 0, 0, 0, 0⟩
    ∧ (summarizeCodeScanning [mkOpenCS (now - 30 * msPerDay)] now).aging.ageBuckets
      = ⟨0, 1, 0, 0, 0⟩
    ∧ (summarizeCodeScanning [mkOpenCS (now - 90 * msPerDay)] now).aging.ageBuckets
      = ⟨0, 0, 1, 0, 0⟩
    ∧ (summarizeCodeScanning [mkOpenCS (now - 180 * msPerDay)] now).aging.ageBuckets
      = ⟨0, 0, 0, 1, 0⟩
    ∧ ∀ e : Nat,
        (summarizeCodeScanning [mkOpenCS (now - (181 + (e : Int)) * msPerDay)] now).aging.ageBuckets
          = ⟨0, 0, 0, 0, 1⟩ := by
  have hb : ∀ created,
      (summarizeCodeScanning [mkOpenCS created] now).aging.ageBuckets
        = AgeBuckets.zero.inc (ageDaysOf now created) := fun _ => rfl
  have hk : ∀ k : Int, ageDaysOf now (now - k * msPerDay) = k := by
    intro k
    unfold ageDaysOf msPerDay
    rw [sub_sub_cancel, Int.fdiv_eq_ediv _ (by norm_num),
      Int.mul_ediv_cancel _ (by norm_num)]
  refine ⟨?_, ?_, ?_, ?_, ?_⟩
  · rw [hb, hk]; decide
  · rw [hb, hk]; decide
  · rw [hb, hk]; decide
  · rw [hb, hk]; decide
  · intro e
    rw [hb, hk]
    unfold AgeBuckets.inc
    rw [if_neg (by omega), if_neg (by omega), if_neg (by omega),
      if_neg (by omega)]
    rfl

/-! ## C1 — behaviour of the alert fetch on HTTP 403/404 -/

/-- C1 counterexample: when every page request of the code-scanning alert
endpoint responds 403, the resulting summary is the all-zero summary with
`enabled = true` — not `enabled = false` as the claim states.  The per-page
handler swallows 403/404 as end-of-state, so the `enabled:false` fallback of
the outer catch is never reached from the alert-list endpoint. -/
theorem c1_counterexample :
    fetchCodeScanningAlerts (fun _ _ => Except.error 403) 1 0
      = .done (csZeroSummary true)
    ∧ (csZeroSummary true).enabled = true := ⟨rfl, rfl⟩

/-- Summarizing an empty secret-scanning alert list gives the all-zero
summary with `enabled := true`. -/
theorem summarizeSecretScanning_nil (now : Int) :
    summarizeSecretScanning [] now = ssZeroSummary true := rfl

/-- A paging loop whose every request is answered 403 or 404 (in any mix)
stops at once with the alerts accumulated so far. -/
theorem pageLoop_err_all {α : Type} (oracle : Nat → Except Nat (List α))
    (fuel page : Nat) (acc : List α)
    (h : ∀ p, oracle p = Except.error 403 ∨ oracle p = Except.error 404) :
    pageLoop oracle (fuel + 1) page acc = .done acc := by
  unfold pageLoop
  rcases h page with hc | hc <;> rw [hc] <;> simp

/-- The state loop under an all-403/404 oracle returns its accumulator. -/
theorem statesLoop_err_all {α : Type}
    (oracle : String → Nat → Except Nat (List α)) (fuel : Nat)
    (h : ∀ s p, oracle s p = Except.error 403 ∨ oracle s p = Except.error 404) :
    ∀ (states : List String) (acc : List α),
      statesLoop oracle (fuel + 1) states acc = .done acc := by
  intro states
  induction states with
  | nil => intro acc; rfl
  | cons s rest ih =>
      intro acc
      unfold statesLoop
      rw [pageLoop_err_all (oracle s) fuel 1 acc (h s)]
      exact ih acc

/-- C1 (amended): for each of the three alert kinds, if every page request of
that kind's alert-list endpoint responds 403 or 404 (in any mix), the fetch
yields that kind's all-zero summary with `enabled = true` (all numeric fields
0/empty); and each summary of the enriched bundle is computed from its own
fetch outcome only — changing the outcome of one kind's fetch never changes
the other two summaries. -/
theorem c1_disabled_endpoint_all_zero :
    (∀ (oracle : String → Nat → Except Nat (List CSAlert)) (fuel : Nat)
        (now : Int),
        (∀ s p, oracle s p = Except.error 403 ∨ oracle s p = Except.error 404) →
        fetchCodeScanningAlerts oracle (fuel + 1) now = .done (csZeroSummary true))
    ∧ (∀ (oracle : String → Nat → Except Nat (List DBAlert)) (fuel : Nat)
        (now : Int),
        (∀ s p, oracle s p = Except.error 403 ∨ oracle s p = Except.error 404) →
        fetchDependabotAlerts oracle (fuel + 1) now = .done (dbZeroSummary true))
    ∧ (∀ (oracle : String → Nat → Except Nat (List SSAlert)) (fuel : Nat)
        (now : Int),
        (∀ s p, oracle s p = Except.error 403 ∨ oracle s p = Except.error 404) →
        fetchSecretScanningAlerts oracle (fuel + 1) now = .done (ssZeroSummary true))
    ∧ (∀ (ref : RepoRef) (det : Except Nat DetailedRepo)
        (cp : Except Nat (Option (List CustomProp))) (co : String → Bool)
        (cs cs' : Except Nat CSSummary) (db : Except Nat DBSummary)
        (ss : Except Nat SSSummary),
        (enrichRepository ref det cp co cs db ss).map
            (fun r => (r.vulnerabilities.dependabot, r.vulnerabilities.secretScanning))
          = (enrichRepository ref det cp co cs' db ss).map
            (fun r => (r.vulnerabilities.dependabot, r.vulnerabilities.secretScanning)))
    ∧ (∀ (ref : RepoRef) (det : Except Nat DetailedRepo)
        (cp : Except Nat (Option (List CustomProp))) (co : String → Bool)
        (cs : Except Nat CSSummary) (db db' : Except Nat DBSummary)
        (ss : Except Nat SSSummary),
        (enrichRepository ref det cp co cs db ss).map
            (fun r => (r.vulnerabilities.codeScanning, r.vulnerabilities.secretScanning))
          = (enrichRepository ref det cp co cs db' ss).map
            (fun r => (r.vulnerabilities.codeScanning, r.vulnerabilities.secretScanning)))
    ∧ (∀ (ref : RepoRef) (det : Except Nat DetailedRepo)
        (cp : Except Nat (Option (List CustomProp))) (co : String → Bool)
        (cs : Except Nat CSSummary) (db : Except Nat DBSummary)
        (ss ss' : Except Nat SSSummary),
        (enrichRepository ref det cp co cs db ss).map
            (fun r => (r.vulnerabilities.codeScanning, r.vulnerabilities.dependabot))
          = (enrichRepository ref det cp co cs db ss').map
            (fun r => (r.vulnerabilities.codeScanning, r.vulnerabilities.dependabot))) := by
  refine ⟨?_, ?_, ?_, ?_, ?_, ?_⟩
  · intro oracle fuel now hall
    unfold fetchCodeScanningAlerts
    rw [statesLoop_err_all oracle fuel hall]
    exact congrArg FetchOut.done (summarizeCodeScanning_nil now)
  · intro oracle fuel now hall
    unfold fetchDependabotAlerts
    rw [statesLoop_err_all oracle fuel hall]
    exact congrArg FetchOut.done (summarizeDependabot_nil now)
  · intro oracle fuel now hall
    unfold fetchSecretScanningAlerts
    rw [statesLoop_err_all oracle fuel hall]
    exact congrArg FetchOut.done (summarizeSecretScanning_nil now)
  · intro ref det cp co cs cs' db ss
    cases det with
    | error c => rfl
    | ok d => by_cases hA : d.archived <;> simp [enrichRepository, hA]
  · intro ref det cp co cs db db' ss
    cases det with
    | error c => rfl
    | ok d => by_cases hA : d.archived <;> simp [enrichRepository, hA]
  · intro ref det cp co cs db ss ss'
    cases det with
    | error c => rfl
    | ok d => by_cases hA : d.archived <;> simp [enrichRepository, hA]

/-- C1 witness: each fetcher under a concrete all-403/404 oracle (a mixed one
for code scanning), and each bundle-independence conjunct at concrete
enrichment inputs differing only in one kind's outcome. -/
theorem c1_witness :
    fetchCodeScanningAlerts
        (fun s _ => if s = "open" then Except.error 403 else Except.error 404)
        (0 + 1) 0 = .done (csZeroSummary true)
    ∧ fetchDependabotAlerts (fun _ _ => Except.error 404) (0 + 1) 0
        = .done (dbZeroSummary true)
    ∧ fetchSecretScanningAlerts (fun _ _ => Except.error 403) (0 + 1) 0
        = .done (ssZeroSummary true)
    ∧ ((enrichRepository ⟨"acme", "svc"⟩ (.ok exampleDetailed) (.error 1)
          (fun _ => false) (.ok (csZeroSummary true)) (.error 500) (.error 500)).map
        (fun r => (r.vulnerabilities.dependabot, r.vulnerabilities.secretScanning))
      = (enrichRepository ⟨"acme", "svc"⟩ (.ok exampleDetailed) (.error 1)
          (fun _ => false) (.error 500) (.error 500) (.error 500)).map
        (fun r => (r.vulnerabilities.dependabot, r.vulnerabilities.secretScanning)))
    ∧ ((enrichRepository ⟨"acme", "svc"⟩ (.ok exampleDetailed) (.error 1)
          (fun _ => false) (.error 500) (.ok (dbZeroSummary true)) (.error 500)).map
        (fun r => (r.vulnerabilities.codeScanning, r.vulnerabilities.secretScanning))
      = (enrichRepository ⟨"acme", "svc"⟩ (.ok exampleDetailed) (.error 1)
          (fun _ => false) (.error 500) (.error 500) (.error 500)).map
        (fun r => (r.vulnerabilities.codeScanning, r.vulnerabilities.secretScanning)))
    ∧ ((enrichRepository ⟨"acme", "svc"⟩ (.ok exampleDetailed) (.error 1)
          (fun _ => false) (.error 500) (.error 500) (.ok (ssZeroSummary true))).map
        (fun r => (r.vulnerabilities.codeScanning, r.vulnerabilities.dependabot))
      = (enrichRepository ⟨"acme", "svc"⟩ (.ok exampleDetailed) (.error 1)
          (fun _ => false) (.error 500) (.error 500) (.error 500)).map
        (fun r => (r.vulnerabilities.codeScanning, r.vulnerabilities.dependabot))) :=
  ⟨c1_disabled_endpoint_all_zero.1 _ 0 0
      (fun s p => by by_cases h : s = "open" <;> simp [h]),
   c1_disabled_endpoint_all_zero.2.1 _ 0 0 (fun _ _ => Or.inr rfl),
   c1_disabled_endpoint_all_zero.2.2.1 _ 0 0 (fun _ _ => Or.inl rfl),
   c1_disabled_endpoint_all_zero.2.2.2.1 ⟨"acme", "svc"⟩ (.ok exampleDetailed)
      (.error 1) (fun _ => false) (.ok (csZeroSummary true)) (.error 500)
      (.error 500) (.error 500),
   c1_disabled_endpoint_all_zero.2.2.2.2.1 ⟨"acme", "svc"⟩ (.ok exampleDetailed)
      (.error 1) (fun _ => false) (.error 500) (.ok (dbZeroSummary true))
      (.error 500) (.error 500),
   c1_disabled_endpoint_all_zero.2.2.2.2.2 ⟨"acme", "svc"⟩ (.ok exampleDetailed)
      (.error 1) (fun _ => false) (.error 500) (.error 500)
      (.ok (ssZeroSummary true)) (.error 500)⟩

/-! ## C4 — curated-field preservation -/

/-- `jsOrS` absorbs a repeated default: `(x || d) || d = x || d`. -/
theorem jsOrS_absorb (x d : String) : jsOrS (jsOrS x d) d = jsOrS x d := by
  unfold jsOrS; split_ifs <;> simp_all

/-- `x || x = x`. -/
theorem jsOrS_self (x : String) : jsOrS x x = x := by
  unfold jsOrS; split_ifs <;> simp_all

/-- `x || x = x` for optional strings. -/
theorem jsOrOS_self (x : Option String) : jsOrOS x x = x := by
  cases x with
  | none => rfl
  | some s => simp [jsOrOS]

/-- `x || ("" || d) … = x || d` in chained form: `x || (x || d) = x || d`. -/
theorem jsOrS_left_absorb (x d : String) : jsOrS x (jsOrS x d) = jsOrS x d := by
  unfold jsOrS; split_ifs <;> simp_all

/-- `x || "" = x`. -/
theorem jsOrS_empty (x : String) : jsOrS x "" = x := by
  unfold jsOrS; split_ifs <;> simp_all

/-- `x || (x || b) = x || b` for optional strings. -/
theorem jsOrOS_left_absorb (x b : Option String) :
    jsOrOS x (jsOrOS x b) = jsOrOS x b := by
  cases x with
  | none => rfl
  | some s => simp [jsOrOS]; split_ifs <;> simp_all [jsOrOS]

/-- C4: merging never overwrites non-empty curated fields with empty or
sentinel fresh values — with a prior record whose `pod`, `vertical`,
`engineeringManager` are non-empty and a fresh record whose pod is empty or
the `"No Pod Selected"` sentinel and whose vertical is empty, the merged
curated fields equal the prior ones exactly; and `engineeringManager` is
never sourced from the fresh fetch: it always resolves to the prior value or
the empty string. -/
theorem c4_curated_field_preservation :
    (∀ (repo : FreshRecord) (e : RepoRecord),
        e.pod ≠ "" → e.vertical ≠ "" → e.engineeringManager ≠ "" →
        (repo.pod = "" ∨ repo.pod = "No Pod Selected") → repo.vertical = "" →
        (mergeRecord repo (some e)).pod = e.pod
          ∧ (mergeRecord repo (some e)).vertical = e.vertical
          ∧ (mergeRecord repo (some e)).engineeringManager = e.engineeringManager)
    ∧ (∀ (repo : FreshRecord) (p : Option RepoRecord),
        (mergeRecord repo p).engineeringManager
          = (match p with
             | some e => jsOrS e.engineeringManager ""
             | none => "")) := by
  constructor
  · intro repo e hp hv hm hfp hfv
    refine ⟨?_, ?_, ?_⟩
    · rcases hfp with h | h <;> simp [mergeRecord, h, jsOrS, hp]
    · simp [mergeRecord, hfv, jsOrS, hv]
    · simp [mergeRecord, jsOrS, hm]
  · intro repo p
    cases p <;> rfl

/-- C4 witness: the preservation applied to a concrete default-valued fresh
record against a concrete curated prior record. -/
theorem c4_witness :
    (mergeRecord exampleFresh (some examplePrior)).pod = "Vertical1-Pod1"
    ∧ (mergeRecord exampleFresh (some examplePrior)).vertical = "Vertical1"
    ∧ (mergeRecord exampleFresh (some examplePrior)).engineeringManager = "Alice" :=
  c4_curated_field_preservation.1 exampleFresh examplePrior
    (by decide) (by decide) (by decide) (Or.inr rfl) rfl

/-! ## C5 — merge idempotence -/

/-- Per-record idempotence of the merge: merging a fresh record against the
result of a first merge with the same fresh record reproduces the first
merge exactly. -/
theorem mergeRecord_idem (repo : FreshRecord) (p : Option RepoRecord) :
    mergeRecord repo (some (mergeRecord repo p)) = mergeRecord repo p := by
  cases p with
  | none =>
      simp only [mergeRecord]
      rw [RepoRecord.mk.injEq]
      refine ⟨rfl, rfl, ?_, ?_, ?_, ?_, ?_, ?_, ?_, ?_, ?_, rfl, rfl, rfl⟩ <;>
        first
          | exact jsOrOS_self _
          | exact jsOrOS_left_absorb _ _
          | (simp only [jsOrS]; split_ifs <;> simp_all)
  | some e =>
      simp only [mergeRecord]
      rw [RepoRecord.mk.injEq]
      refine ⟨rfl, rfl, ?_, ?_, ?_, ?_, ?_, ?_, ?_, ?_, ?_, rfl, rfl, rfl⟩ <;>
        first
          | exact jsOrOS_self _
          | exact jsOrOS_left_absorb _ _
          | (simp only [jsOrS]; split_ifs <;> simp_all)

-- A: key of a lookup result
theorem lookupLast_key_aux (k : String) :
    ∀ (l : List RepoRecord) (acc : Option RepoRecord),
      (∀ x, acc = some x → x.key = k) →
      ∀ e, l.foldl (fun acc r => if r.key = k then some r else acc) acc = some e →
      e.key = k := by
  intro l
  induction l with
  | nil => intro acc hacc e he; exact hacc e he
  | cons r t ih =>
      intro acc hacc e he
      refine ih _ ?_ e he
      intro x hx
      by_cases hr : r.key = k
      · simp [hr] at hx; rw [← hx]; exact hr
      · simp [hr] at hx; exact hacc x hx

theorem lookupLast_key {l : List RepoRecord} {k : String} {e : RepoRecord}
    (h : lookupLast l k = some e) : e.key = k :=
  lookupLast_key_aux k l none (by simp) e h

theorem lookupLastF_key_aux (k : String) :
    ∀ (l : List FreshRecord) (acc : Option FreshRecord),
      (∀ x, acc = some x → x.key = k) →
      ∀ e, l.foldl (fun acc r => if r.key = k then some r else acc) acc = some e →
      e.key = k := by
  intro l
  induction l with
  | nil => intro acc hacc e he; exact hacc e he
  | cons r t ih =>
      intro acc hacc e he
      refine ih _ ?_ e he
      intro x hx
      by_cases hr : r.key = k
      · simp [hr] at hx; rw [← hx]; exact hr
      · simp [hr] at hx; exact hacc x hx

theorem lookupLastF_key {l : List FreshRecord} {k : String} {e : FreshRecord}
    (h : lookupLastF l k = some e) : e.key = k :=
  lookupLastF_key_aux k l none (by simp) e h

-- B: accumulator fallback characterization of the lookup fold
theorem foldl_lookup_acc (k : String) :
    ∀ (t : List RepoRecord) (acc : Option RepoRecord),
      t.foldl (fun acc r => if r.key = k then some r else acc) acc
        = (match lookupLast t k with
           | some e => some e
           | none => acc) := by
  intro t
  induction t with
  | nil => intro acc; simp [lookupLast]
  | cons r t ih =>
      intro acc
      show t.foldl _ (if r.key = k then some r else acc) = _
      rw [ih]
      have hcons : lookupLast (r :: t) k
          = (match lookupLast t k with
             | some e => some e
             | none => if r.key = k then some r else none) := by
        show t.foldl _ (if r.key = k then some r else none) = _
        rw [ih]
      rw [hcons]
      cases lookupLast t k
      · by_cases hr : r.key = k <;> simp [hr]
      · rfl


/-- `lookupLast` distributes over `cons` with a fallback to the head. -/
theorem lookupLast_cons (r : RepoRecord) (t : List RepoRecord) (k : String) :
    lookupLast (r :: t) k
      = (match lookupLast t k with
         | some e => some e
         | none => if r.key = k then some r else none) := by
  show t.foldl _ (if r.key = k then some r else none) = _
  rw [foldl_lookup_acc]

/-- Analog of `foldl_lookup_acc` for fresh records. -/
theorem foldl_lookupF_acc (k : String) :
    ∀ (t : List FreshRecord) (acc : Option FreshRecord),
      t.foldl (fun acc r => if r.key = k then some r else acc) acc
        = (match lookupLastF t k with
           | some e => some e
           | none => acc) := by
  intro t
  induction t with
  | nil => intro acc; simp [lookupLastF]
  | cons r t ih =>
      intro acc
      show t.foldl _ (if r.key = k then some r else acc) = _
      rw [ih]
      have hcons : lookupLastF (r :: t) k
          = (match lookupLastF t k with
             | some e => some e
             | none => if r.key = k then some r else none) := by
        show t.foldl _ (if r.key = k then some r else none) = _
        rw [ih]
      rw [hcons]
      cases lookupLastF t k
      · by_cases hr : r.key = k <;> simp [hr]
      · rfl

/-- A key that occurs nowhere in the list looks up to `none`. -/
theorem lookupLast_eq_none (k : String) :
    ∀ (t : List RepoRecord), (∀ x ∈ t, x.key ≠ k) → lookupLast t k = none := by
  intro t
  induction t with
  | nil => intro _; rfl
  | cons x t ih =>
      intro h
      rw [lookupLast_cons, ih (fun y hy => h y (List.mem_cons_of_mem x hy))]
      simp [h x (List.mem_cons_self x t)]

/-- A `t.any` of key-match that fails means every key differs. -/
theorem not_any_key {t : List RepoRecord} {k : String}
    (h : ¬ (t.any (fun x => x.key = k)) = true) : ∀ x ∈ t, x.key ≠ k := by
  intro x hx hk
  exact h (List.any_eq_true.mpr ⟨x, hx, by simp [hk]⟩)

/-- Replacing every record of a given key leaves lookups at other keys
unchanged and redirects the lookup at that key to the replacement (when the
key occurs). -/
theorem lookupLast_map_replace (r : RepoRecord) (k : String) :
    ∀ (acc : List RepoRecord),
      lookupLast (acc.map (fun x => if x.key = r.key then r else x)) k
        = (if r.key = k ∧ acc.any (fun x => x.key = r.key) then some r
           else lookupLast acc k) := by
  intro acc
  induction acc with
  | nil => simp [lookupLast]
  | cons x t ih =>
      simp only [List.map_cons, List.any_cons]
      rw [lookupLast_cons, ih, lookupLast_cons]
      by_cases hk : r.key = k
      · by_cases hex : ∃ y ∈ t, y.key = k
        · by_cases hx : x.key = r.key <;> simp [hk, hx, hex]
        · have hnone : lookupLast t k = none := by
            refine lookupLast_eq_none k t ?_
            intro y hy hyk
            exact hex ⟨y, hy, hyk⟩
          by_cases hx : x.key = r.key
          · simp [hk, hx, hex, hnone]
          · have hxk : ¬ x.key = k := fun h => hx (h.trans hk.symm)
            simp [hk, hx, hex, hnone, hxk]
      · by_cases hx : x.key = r.key
        · have hxk : ¬ x.key = k := fun h => hk (hx.symm.trans h)
          cases hlt : lookupLast t k <;> simp [hk, hx, hxk, hlt]
        · cases hlt : lookupLast t k <;> simp [hk, hx, hlt]

/-- Looking up in `dedupStep acc r`: the new record wins at its key. -/
theorem lookupLast_dedupStep (acc : List RepoRecord) (r : RepoRecord) (k : String) :
    lookupLast (dedupStep acc r) k
      = if r.key = k then some r else lookupLast acc k := by
  unfold dedupStep
  by_cases hany : (acc.any fun x => x.key = r.key) = true
  · rw [if_pos hany, lookupLast_map_replace]
    by_cases hk : r.key = k
    · rw [if_pos (And.intro hk hany), if_pos hk]
    · rw [if_neg (fun h => hk h.1), if_neg hk]
  · rw [if_neg hany]
    show (acc ++ [r]).foldl _ none = _
    rw [List.foldl_append]
    rfl

/-- Looking up after the de-duplicating fold falls back to the accumulator. -/
theorem lookupLast_dedup_fold (k : String) :
    ∀ (l : List RepoRecord) (acc : List RepoRecord),
      lookupLast (l.foldl dedupStep acc) k
        = (match lookupLast l k with
           | some e => some e
           | none => lookupLast acc k) := by
  intro l
  induction l with
  | nil => intro acc; simp [lookupLast]
  | cons r t ih =>
      intro acc
      show lookupLast (t.foldl dedupStep (dedupStep acc r)) k = _
      rw [ih, lookupLast_dedupStep, lookupLast_cons]
      cases lookupLast t k
      · by_cases hk : r.key = k <;> simp [hk]
      · rfl

/-- De-duplication does not change last-wins lookups. -/
theorem lookupLast_dedupByKey (l : List RepoRecord) (k : String) :
    lookupLast (dedupByKey l) k = lookupLast l k := by
  unfold dedupByKey
  rw [lookupLast_dedup_fold]
  cases h : lookupLast l k <;> simp [h, lookupLast]

/-- The key sequence of `dedupStep acc r`. -/
theorem map_key_dedupStep (acc : List RepoRecord) (r : RepoRecord) :
    (dedupStep acc r).map RepoRecord.key
      = keyStep (acc.map RepoRecord.key) r.key := by
  unfold dedupStep keyStep
  by_cases hmem : r.key ∈ acc.map RepoRecord.key
  · have hany : (acc.any fun x => x.key = r.key) = true := by
      rcases List.mem_map.mp hmem with ⟨x, hx, hkey⟩
      exact List.any_eq_true.mpr ⟨x, hx, by simp [hkey]⟩
    rw [if_pos hany, if_pos hmem, List.map_map]
    have hcomp : (RepoRecord.key ∘ fun x => if x.key = r.key then r else x)
        = RepoRecord.key := by
      funext x
      by_cases hx : x.key = r.key <;> simp [hx]
    rw [hcomp]
  · have hany : ¬ (acc.any fun x => x.key = r.key) = true := by
      intro h
      rcases List.any_eq_true.mp h with ⟨x, hx, hkey⟩
      exact hmem (List.mem_map.mpr ⟨x, hx, by simpa using hkey⟩)
    rw [if_neg hany, if_neg hmem, List.map_append]
    rfl

/-- The key sequence of the de-duplicating fold. -/
theorem map_key_dedup_fold :
    ∀ (l : List RepoRecord) (acc : List RepoRecord),
      (l.foldl dedupStep acc).map RepoRecord.key
        = (l.map RepoRecord.key).foldl keyStep (acc.map RepoRecord.key) := by
  intro l
  induction l with
  | nil => intro acc; rfl
  | cons r t ih =>
      intro acc
      show (t.foldl dedupStep (dedupStep acc r)).map RepoRecord.key = _
      rw [ih, map_key_dedupStep, List.map_cons]
      rfl

/-- The de-duplicated key sequence of a collection. -/
theorem map_key_dedupByKey (l : List RepoRecord) :
    (dedupByKey l).map RepoRecord.key
      = (l.map RepoRecord.key).foldl keyStep [] :=
  map_key_dedup_fold l []

/-- The first-occurrence fold produces duplicate-free key sequences. -/
theorem keyStep_fold_nodup :
    ∀ (ks : List String) (acc : List String),
      acc.Nodup → (ks.foldl keyStep acc).Nodup := by
  intro ks
  induction ks with
  | nil => intro acc h; exact h
  | cons s t ih =>
      intro acc h
      refine ih (keyStep acc s) ?_
      unfold keyStep
      by_cases hmem : s ∈ acc
      · rwa [if_pos hmem]
      · rw [if_neg hmem]
        simp [List.nodup_append, h, hmem]

/-- Merging preserves the identity key of the fresh record. -/
theorem mergeRecord_key (r : FreshRecord) (l : List RepoRecord) :
    (mergeRecord r (lookupLast l r.key)).key = r.key := by
  cases h : lookupLast l r.key with
  | none => rfl
  | some e => exact (lookupLast_key h : RepoRecord.key e = r.key)

/-- The key sequence of a merged collection is that of the fresh records. -/
theorem map_key_mergeWithOwnership (fresh : List FreshRecord)
    (prior : List RepoRecord) :
    (mergeWithOwnership fresh prior).map RepoRecord.key
      = fresh.map FreshRecord.key := by
  unfold mergeWithOwnership
  rw [List.map_map]
  refine List.map_congr_left ?_
  intro r _
  exact mergeRecord_key r prior

/-- Merging commutes with last-wins lookup: looking up a key in the merged
collection is merging the last fresh record with that key. -/
theorem lookupLast_mergeWithOwnership (fresh : List FreshRecord)
    (prior : List RepoRecord) (k : String) :
    lookupLast (mergeWithOwnership fresh prior) k
      = Option.map (fun r => mergeRecord r (lookupLast prior r.key))
          (lookupLastF fresh k) := by
  suffices h : ∀ acc : Option FreshRecord,
      (fresh.map (fun r => mergeRecord r (lookupLast prior r.key))).foldl
          (fun acc r => if r.key = k then some r else acc)
          (Option.map (fun r => mergeRecord r (lookupLast prior r.key)) acc)
        = Option.map (fun r => mergeRecord r (lookupLast prior r.key))
            (fresh.foldl (fun acc r => if r.key = k then some r else acc) acc) by
    exact h none
  induction fresh with
  | nil => intro acc; rfl
  | cons r t ih =>
      intro acc
      simp only [List.map_cons, List.foldl_cons, mergeRecord_key r prior]
      by_cases hr : r.key = k
      · rw [if_pos hr, if_pos hr]
        exact ih (some r)
      · rw [if_neg hr, if_neg hr]
        exact ih acc

/-- Two collections with the same duplicate-free key sequence and the same
last-wins lookups are equal. -/
theorem eq_of_keys_lookup :
    ∀ (u v : List RepoRecord),
      (u.map RepoRecord.key).Nodup →
      u.map RepoRecord.key = v.map RepoRecord.key →
      (∀ k, lookupLast u k = lookupLast v k) → u = v := by
  intro u
  induction u with
  | nil =>
      intro v _ hkeys _
      exact (List.map_eq_nil_iff.mp hkeys.symm).symm
  | cons x u ih =>
      intro v hnd hkeys hlook
      cases v with
      | nil => exact absurd hkeys (by simp)
      | cons y v =>
          simp only [List.map_cons, List.cons.injEq] at hkeys
          obtain ⟨hxy, htail⟩ := hkeys
          simp only [List.map_cons, List.nodup_cons] at hnd
          obtain ⟨hxnotin, hndu⟩ := hnd
          have hunone : lookupLast u x.key = none := by
            refine lookupLast_eq_none x.key u ?_
            intro z hz hzk
            exact hxnotin (hzk ▸ List.mem_map_of_mem RepoRecord.key hz)
          have hvnone : lookupLast v x.key = none := by
            refine lookupLast_eq_none x.key v ?_
            intro z hz hzk
            refine hxnotin ?_
            rw [htail]
            exact hzk ▸ List.mem_map_of_mem RepoRecord.key hz
          have hx : lookupLast (x :: u) x.key = some x := by
            rw [lookupLast_cons, hunone]
            simp
          have hy : lookupLast (y :: v) x.key = some y := by
            rw [lookupLast_cons, hvnone]
            simp [hxy]
          have hxyeq : x = y := by
            have := (hx.symm.trans (hlook x.key)).trans hy
            exact Option.some.inj this
          subst hxyeq
          have htl : ∀ k, lookupLast u k = lookupLast v k := by
            intro k
            by_cases hk : x.key = k
            · rw [← hk, hunone, hvnone]
            · have h1 := hlook k
              rw [lookupLast_cons, lookupLast_cons, if_neg hk] at h1
              cases hu : lookupLast u k <;> cases hv : lookupLast v k <;>
                rw [hu, hv] at h1 <;> simp_all
          rw [ih v hndu htail htl]

/-- Running the merge-and-dedup pipeline twice with the same fresh data is
the same as running it once. -/
theorem persistRun_idem (fresh : List FreshRecord) (prior : List RepoRecord) :
    persistRun fresh (persistRun fresh prior) = persistRun fresh prior := by
  apply eq_of_keys_lookup
  · unfold persistRun
    rw [map_key_dedupByKey]
    exact keyStep_fold_nodup _ [] (by simp)
  · unfold persistRun
    rw [map_key_dedupByKey, map_key_dedupByKey,
      map_key_mergeWithOwnership, map_key_mergeWithOwnership]
  · intro k
    unfold persistRun
    rw [lookupLast_dedupByKey, lookupLast_dedupByKey,
      lookupLast_mergeWithOwnership, lookupLast_mergeWithOwnership]
    cases hf : lookupLastF fresh k with
    | none => rfl
    | some r =>
        have hrk : r.key = k := lookupLastF_key hf
        have hf2 : lookupLastF fresh r.key = some r := by rw [hrk]; exact hf
        have hP1 : lookupLast (persistRun fresh prior) r.key
            = some (mergeRecord r (lookupLast prior r.key)) := by
          unfold persistRun
          rw [lookupLast_dedupByKey, lookupLast_mergeWithOwnership, hf2]
          rfl
        show some (mergeRecord r (lookupLast (persistRun fresh prior) r.key))
          = some (mergeRecord r (lookupLast prior r.key))
        rw [hP1, mergeRecord_idem]


/-- C5: merging is idempotent — per record, merging the same fresh record
against the result of a first merge yields the first merge's record exactly
(curated fields and observed fields alike); and at the collection level,
running the merge-and-dedup persistence pipeline twice with the same fresh
dataset yields the same persisted record set as running it once. -/
theorem c5_merge_idempotent :
    (∀ (repo : FreshRecord) (p : Option RepoRecord),
        mergeRecord repo (some (mergeRecord repo p)) = mergeRecord repo p)
    ∧ (∀ (fresh : List FreshRecord) (prior : List RepoRecord),
        persistRun fresh (persistRun fresh prior) = persistRun fresh prior) :=
  ⟨mergeRecord_idem, persistRun_idem⟩

/-! ## C2 — fate of a repository whose fetch fails -/

/-- C2 counterexample: a prior record exists for `acme/svc` and the current
run's metadata fetch for it throws HTTP 500 (neither 403 nor 404).  The
repository is excluded from the `updated` set (as the claim says) — but the
persisted output is empty: the prior record is dropped, not retained
unchanged. -/
theorem c2_counterexample :
    (syncOutput [exampleFailingInput] [examplePrior]).updated = 0
    ∧ (syncOutput [exampleFailingInput] [examplePrior]).repositories = [] :=
  ⟨rfl, rfl⟩

/-- C2 (amended): a repository whose detailed-repository fetch throws (any
status code) is excluded from the run's `updated` set (counted as skipped),
and — because `mergeWithOwnership` maps over the freshly fetched records
only — its prior record does not appear in the persisted output at all. -/
theorem c2_failed_fetch_skipped_and_dropped (ref : RepoRef) (c : Nat)
    (cp : Except Nat (Option (List CustomProp))) (co : String → Bool)
    (cs : Except Nat CSSummary) (db : Except Nat DBSummary)
    (ss : Except Nat SSSummary) (prior : List RepoRecord) :
    syncOutput [⟨ref, .error c, cp, co, cs, db, ss⟩] prior = ⟨0, 1, 0, []⟩ := by
  simp [syncOutput, runEnrich, enrichRepository, mergeWithOwnership, dedupByKey]

/-! ## C3 — bundle replacement when the vulnerability stage fails -/

/-- C3 counterexample: the prior record holds a bundle with five critical
dependency alerts; the current run's metadata fetch succeeds but all three
alert-kind fetches throw HTTP 500 (the entire vulnerability stage fails).
The merged record's bundle is the fresh all-zero `enabled:false` bundle, not
the prior one — the prior bundle is erased, contrary to the claim. -/
theorem c3_counterexample :
    (syncOutput [exampleAllVulnFailInput] [examplePrior]).repositories.map
        (fun r => r.vulnerabilities) = [some allFailedBundle]
    ∧ examplePrior.vulnerabilities ≠ some allFailedBundle := by
  exact ⟨rfl, by decide⟩

/-- C3 (amended): the fresh bundle replaces the prior one wholesale whenever
enrichment produced a record at all — even when zero alert kinds succeeded,
in which case the bundle consists of the three all-zero `enabled:false`
fallback summaries.  The prior bundle survives only when the repository has
no fresh record (in which case it is dropped from the output entirely). -/
theorem c3_fresh_bundle_always_replaces :
    (∀ (repo : FreshRecord) (existing : Option RepoRecord),
        (mergeRecord repo existing).vulnerabilities = some repo.vulnerabilities)
    ∧ (∀ (ref : RepoRef) (d : DetailedRepo)
        (cp : Except Nat (Option (List CustomProp))) (co : String → Bool)
        (c1 c2 c3 : Nat),
        (enrichRepository ref (.ok d) cp co (.error c1) (.error c2) (.error c3)).map
            (fun r => r.vulnerabilities)
          = if d.archived then none else some allFailedBundle) := by
  constructor
  · intro repo existing
    cases existing <;> rfl
  · intro ref d cp co c1 c2 c3
    by_cases hA : d.archived <;> simp [enrichRepository, allFailedBundle, hA]

/-! ## C10 — archived repositories are skipped -/

/-- C10: a repository whose fetched metadata marks it archived is skipped —
enrichment returns `none`, the sync run counts it as skipped and emits no
record for it — and no freshly enriched record ever carries status
`"archived"` (fresh statuses are only `"active"` or `"deprecated"`). -/
theorem c10_archived_repositories_skipped :
    (∀ (ref : RepoRef) (d : DetailedRepo)
        (cp : Except Nat (Option (List CustomProp))) (co : String → Bool)
        (cs : Except Nat CSSummary) (db : Except Nat DBSummary)
        (ss : Except Nat SSSummary), d.archived = true →
        enrichRepository ref (.ok d) cp co cs db ss = none)
    ∧ (∀ (ref : RepoRef) (det : Except Nat DetailedRepo)
        (cp : Except Nat (Option (List CustomProp))) (co : String → Bool)
        (cs : Except Nat CSSummary) (db : Except Nat DBSummary)
        (ss : Except Nat SSSummary) (r : FreshRecord),
        enrichRepository ref det cp co cs db ss = some r →
        r.status ≠ "archived")
    ∧ (∀ (ref : RepoRef) (d : DetailedRepo)
        (cp : Except Nat (Option (List CustomProp))) (co : String → Bool)
        (cs : Except Nat CSSummary) (db : Except Nat DBSummary)
        (ss : Except Nat SSSummary) (prior : List RepoRecord),
        d.archived = true →
        syncOutput [⟨ref, .ok d, cp, co, cs, db, ss⟩] prior = ⟨0, 1, 0, []⟩) := by
  refine ⟨?_, ?_, ?_⟩
  · intro ref d cp co cs db ss h
    simp [enrichRepository, h]
  · intro ref det cp co cs db ss r h
    cases det with
    | error c => simp [enrichRepository] at h
    | ok d =>
      cases hA : d.archived with
      | true => simp [enrichRepository, hA] at h
      | false =>
        simp only [enrichRepository, hA, Bool.false_eq_true, if_false,
          Option.some.injEq] at h
        rw [← h]
        cases hd : d.disabled <;> simp
  · intro ref d cp co cs db ss prior h
    simp [syncOutput, runEnrich, enrichRepository, h, mergeWithOwnership,
      dedupByKey]

/-- C10 witness: the theorem applied to an archived concrete repository, to a
concrete successful enrichment, and to a one-repository sync run. -/
theorem c10_witness :
    enrichRepository ⟨"acme", "svc"⟩ (.ok { exampleDetailed with archived := true })
        (.error 1) (fun _ => false) (.error 1) (.error 1) (.error 1) = none
    ∧ exampleEnriched.status ≠ "archived"
    ∧ syncOutput
        [⟨⟨"acme", "svc"⟩, .ok { exampleDetailed with archived := true },
          .error 1, fun _ => false, .error 1, .error 1, .error 1⟩]
        [examplePrior] = ⟨0, 1, 0, []⟩ :=
  ⟨c10_archived_repositories_skipped.1 ⟨"acme", "svc"⟩
      { exampleDetailed with archived := true } (.error 1) (fun _ => false)
      (.error 1) (.error 1) (.error 1) rfl,
   c10_archived_repositories_skipped.2.1 ⟨"acme", "svc"⟩ (.ok exampleDetailed)
      (.error 1) (fun _ => false) (.error 1) (.error 1) (.error 1)
      exampleEnriched (by decide),
   c10_archived_repositories_skipped.2.2 ⟨"acme", "svc"⟩
      { exampleDetailed with archived := true } (.error 1) (fun _ => false)
      (.error 1) (.error 1) (.error 1) [examplePrior] rfl⟩

/-! ## C8 — the risk score formula -/

/-- `maxAvgAge` of the negative-age bundle. -/
theorem maxAvgAge_negAgeBundle : maxAvgAge negAgeBundle = -120 := by decide

/-- C8 counterexample: on a bundle whose maximal average age is negative the
code clamps the age multiplier to `1.0` (the `maxAge > 0` guard), while the
claim's formula `min(1 + maxAge/60, 3)` would make it negative: the code
returns `10`, the claim's formula `-10`. -/
theorem c8_counterexample :
    calculateRiskScore (some negAgeBundle) ≠ claimRiskScore negAgeBundle := by
  have h1 : calculateRiskScore (some negAgeBundle) = 10 := by
    simp only [calculateRiskScore, maxAvgAge_negAgeBundle, jsRound]
    norm_num [negAgeBundle, csZeroSummary, dbZeroSummary, ssZeroSummary]
  have h2 : claimRiskScore negAgeBundle = -10 := by
    simp only [claimRiskScore, maxAvgAge_negAgeBundle, jsRound]
    rw [min_eq_left (by push_cast; norm_num)]
    norm_num [negAgeBundle, csZeroSummary, dbZeroSummary, ssZeroSummary]
  rw [h1, h2]
  decide

/-- C8 (amended): whenever the maximal average age across the three summaries
is non-negative (every bundle the summarizer builds from alerts that are not
future-dated), the risk score equals `round(baseScore × ageMultiplier)` with
`baseScore = Σ (critical×10 + high×7 + medium×4 + low×2 + info×1) +
secretScanning.total × 5` (the summaries carry no `info` count, so that term
is 0) and `ageMultiplier = min(1 + maxAge/60, 3)`; deterministic, no I/O.
When the maximal average age is negative the code clamps the multiplier to
`1.0` instead. -/
theorem c8_risk_score_formula (v : Vulnerabilities) (h : 0 ≤ maxAvgAge v) :
    calculateRiskScore (some v) = claimRiskScore v := by
  have hbase :
      ((v.codeScanning.critical + v.dependabot.critical) * 10 +
        (v.codeScanning.high + v.dependabot.high) * 7 +
        (v.codeScanning.medium + v.dependabot.medium) * 4 +
        (v.codeScanning.low + v.dependabot.low) * 2 + 0 * 1 +
        v.secretScanning.total * 5)
      = ((v.codeScanning.critical * 10 + v.codeScanning.high * 7 +
          v.codeScanning.medium * 4 + v.codeScanning.low * 2 + 0 * 1) +
         (v.dependabot.critical * 10 + v.dependabot.high * 7 +
          v.dependabot.medium * 4 + v.dependabot.low * 2 + 0 * 1) +
         v.secretScanning.total * 5) := by ring
  rcases lt_or_eq_of_le h with hpos | hzero
  · simp only [calculateRiskScore, claimRiskScore, if_pos hpos, hbase]
  · simp only [calculateRiskScore, claimRiskScore, ← hzero, hbase]
    norm_num

/-- C8 witness: the formula applied to the all-zero bundle (max average age
`0`). -/
theorem c8_witness :
    calculateRiskScore (some zeroBundle) = claimRiskScore zeroBundle :=
  c8_risk_score_formula zeroBundle (by decide)

end SyncSpec
